import Mathlib

/-!
  # Verification of the bitcoin-rs script core

  Shallow embedding of the CompactSize codec (`src/utils.rs`), the opcode
  table, the script term codec and the stack interpreter (`src/script.rs`).
  Bytes are modelled as `Nat` (values produced by the code are always below
  256); `Vec<u8>` becomes `List Nat`; Rust panics (out-of-bounds indexing,
  `unwrap` of `None`, failed `assert!`, `unimplemented!`) become explicit
  failure values (`Option.none`, or a dedicated interpreter outcome).
-/

namespace BitcoinRs

/-! ## CompactSize codec (`src/utils.rs`, `CompactBytes`) -/

/-- The `CompactBytes` enum of `src/utils.rs`: a compact size field storing
its raw payload bytes, with variants for 1-, 2-, 4- and 8-byte payloads. -/
inductive CompactBytes where
  | B1 (b0 : Nat)
  | B2 (b0 b1 : Nat)
  | B4 (b0 b1 b2 b3 : Nat)
  | B8 (b0 b1 b2 b3 b4 b5 b6 b7 : Nat)
  deriving DecidableEq

/-- Embedding of `impl Serialize for CompactBytes`: the payload preceded by
the marker byte `0xFD`/`0xFE`/`0xFF` for the 2/4/8-byte variants. -/
def serializeCompactBytes : CompactBytes → List Nat
  | .B1 b0 => [b0]
  | .B2 b0 b1 => [0xFD, b0, b1]
  | .B4 b0 b1 b2 b3 => [0xFE, b0, b1, b2, b3]
  | .B8 b0 b1 b2 b3 b4 b5 b6 b7 => [0xFF, b0, b1, b2, b3, b4, b5, b6, b7]

/-- Embedding of `impl Deserialize for CompactBytes`: dispatch on the total
length (1, 3, 5 or 9), checking the marker byte for the longer forms.  A
failed `assert_eq!` on the marker, or an unsupported length (`panic!`), is
modelled as `none`. -/
def deserializeCompactBytes : List Nat → Option CompactBytes
  | [b0] => some (.B1 b0)
  | [m, b0, b1] => if m = 0xFD then some (.B2 b0 b1) else none
  | [m, b0, b1, b2, b3] => if m = 0xFE then some (.B4 b0 b1 b2 b3) else none
  | [m, b0, b1, b2, b3, b4, b5, b6, b7] =>
      if m = 0xFF then some (.B8 b0 b1 b2 b3 b4 b5 b6 b7) else none
  | _ => none

end BitcoinRs

namespace BitcoinRs

/-- C7: deserializing the serialization of any `CompactBytes` value returns
that value; the serialization has total length 1, 3, 5 or 9; and the 3-, 5-
and 9-byte forms start with the markers `0xFD`, `0xFE`, `0xFF` respectively. -/
theorem compactBytes_roundtrip_and_length (cb : CompactBytes) :
    deserializeCompactBytes (serializeCompactBytes cb) = some cb ∧
    ((serializeCompactBytes cb).length = 1 ∨ (serializeCompactBytes cb).length = 3 ∨
      (serializeCompactBytes cb).length = 5 ∨ (serializeCompactBytes cb).length = 9) ∧
    ((serializeCompactBytes cb).length = 3 → (serializeCompactBytes cb).head? = some 0xFD) ∧
    ((serializeCompactBytes cb).length = 5 → (serializeCompactBytes cb).head? = some 0xFE) ∧
    ((serializeCompactBytes cb).length = 9 → (serializeCompactBytes cb).head? = some 0xFF) := by
  cases cb <;> simp [serializeCompactBytes, deserializeCompactBytes]

/-- Witness for C7 at the concrete value `B2 3 4`. -/
theorem compactBytes_roundtrip_and_length_witness :
    deserializeCompactBytes (serializeCompactBytes (.B2 3 4)) = some (.B2 3 4) ∧
    (serializeCompactBytes (.B2 3 4)).head? = some 0xFD :=
  ⟨(compactBytes_roundtrip_and_length (.B2 3 4)).1,
   (compactBytes_roundtrip_and_length (.B2 3 4)).2.2.1 rfl⟩

end BitcoinRs

namespace BitcoinRs

/-! ## Opcode table (`src/script.rs`, `enum Opcode`) -/

/-- The `Opcode` enum of `src/script.rs`, in source order.  `OP_PUSHBYTES`
carries the push length, `OP_PUSHDATA1/2/4` carry their raw length-descriptor
bytes; all payload bytes are modelled as `Nat`. -/
inductive Opcode where
  | OP_0
  | OP_FALSE
  | OP_PUSHBYTES (n : Nat)
  | OP_PUSHDATA1 (n : Nat)
  | OP_PUSHDATA2 (b0 b1 : Nat)
  | OP_PUSHDATA4 (b0 b1 b2 b3 : Nat)
  | OP_1NEGATE
  | OP_RESERVED
  | OP_1
  | OP_TRUE
  | OP_2
  | OP_3
  | OP_4
  | OP_5
  | OP_6
  | OP_7
  | OP_8
  | OP_9
  | OP_10
  | OP_11
  | OP_12
  | OP_13
  | OP_14
  | OP_15
  | OP_16
  | OP_NOP
  | OP_VER
  | OP_IF
  | OP_NOTIF
  | OP_VERIF
  | OP_VERNOTIF
  | OP_ELSE
  | OP_ENDIF
  | OP_VERIFY
  | OP_RETURN
  | OP_TOALTSTACK
  | OP_FROMALTSTACK
  | OP_2DROP
  | OP_2DUP
  | OP_3DUP
  | OP_2OVER
  | OP_2ROT
  | OP_2SWAP
  | OP_IFDUP
  | OP_DEPTH
  | OP_DROP
  | OP_DUP
  | OP_NIP
  | OP_OVER
  | OP_PICK
  | OP_ROLL
  | OP_ROT
  | OP_SWAP
  | OP_TUCK
  | OP_CAT
  | OP_SUBSTR
  | OP_LEFT
  | OP_RIGHT
  | OP_SIZE
  | OP_INVERT
  | OP_AND
  | OP_OR
  | OP_XOR
  | OP_EQUAL
  | OP_EQUALVERIFY
  | OP_RESERVED1
  | OP_RESERVED2
  | OP_1ADD
  | OP_1SUB
  | OP_2MUL
  | OP_2DIV
  | OP_NEGATE
  | OP_ABS
  | OP_NOT
  | OP_0NOTEQUAL
  | OP_ADD
  | OP_SUB
  | OP_MUL
  | OP_DIV
  | OP_MOD
  | OP_LSHIFT
  | OP_RSHIFT
  | OP_BOOLAND
  | OP_BOOLOR
  | OP_NUMEQUAL
  | OP_NUMEQUALVERIFY
  | OP_NUMNOTEQUAL
  | OP_LESSTHAN
  | OP_GREATERTHAN
  | OP_LESSTHANOREQUAL
  | OP_GREATERTHANOREQUAL
  | OP_MIN
  | OP_MAX
  | OP_WITHIN
  | OP_RIPEMD160
  | OP_SHA1
  | OP_SHA256
  | OP_HASH160
  | OP_HASH256
  | OP_CODESEPARATOR
  | OP_CHECKSIG
  | OP_CHECKSIGVERIFY
  | OP_CHECKMULTISIG
  | OP_CHECKMULTISIGVERIFY
  | OP_NOP1
  | OP_CHECKLOCKTIMEVERIFY
  | OP_NOP2
  | OP_CHECKSEQUENCEVERIFY
  | OP_NOP3
  | OP_NOP4
  | OP_NOP5
  | OP_NOP6
  | OP_NOP7
  | OP_NOP8
  | OP_NOP9
  | OP_NOP10
  | OP_CHECKSIGADD
  | OP_INVALIDOPCODE

/-- Embedding of `impl From<u8> for Opcode` (`src/script.rs`).  The
`panic!("Invalid opcode")` arm for the reserved range `0xbb..=0xfe` (and any
non-byte value) is modelled as `none`.  As in the source, `0x4c`/`0x4d`/`0x4e`
yield push-data opcodes with zeroed payloads. -/
def fromByte (b : Nat) : Option Opcode :=
  if b = 0x00 then some .OP_0
  else if 0x01 ≤ b ∧ b ≤ 0x4b then some (.OP_PUSHBYTES b)
  else if b = 0x4c then some (.OP_PUSHDATA1 0)
  else if b = 0x4d then some (.OP_PUSHDATA2 0 0)
  else if b = 0x4e then some (.OP_PUSHDATA4 0 0 0 0)
  else if b = 0x4f then some .OP_1NEGATE
  else if b = 0x50 then some .OP_RESERVED
  else if b = 0x51 then some .OP_1
  else if b = 0x52 then some .OP_2
  else if b = 0x53 then some .OP_3
  else if b = 0x54 then some .OP_4
  else if b = 0x55 then some .OP_5
  else if b = 0x56 then some .OP_6
  else if b = 0x57 then some .OP_7
  else if b = 0x58 then some .OP_8
  else if b = 0x59 then some .OP_9
  else if b = 0x5a then some .OP_10
  else if b = 0x5b then some .OP_11
  else if b = 0x5c then some .OP_12
  else if b = 0x5d then some .OP_13
  else if b = 0x5e then some .OP_14
  else if b = 0x5f then some .OP_15
  else if b = 0x60 then some .OP_16
  else if b = 0x61 then some .OP_NOP
  else if b = 0x62 then some .OP_VER
  else if b = 0x63 then some .OP_IF
  else if b = 0x64 then some .OP_NOTIF
  else if b = 0x65 then some .OP_VERIF
  else if b = 0x66 then some .OP_VERNOTIF
  else if b = 0x67 then some .OP_ELSE
  else if b = 0x68 then some .OP_ENDIF
  else if b = 0x69 then some .OP_VERIFY
  else if b = 0x6a then some .OP_RETURN
  else if b = 0x6b then some .OP_TOALTSTACK
  else if b = 0x6c then some .OP_FROMALTSTACK
  else if b = 0x6d then some .OP_2DROP
  else if b = 0x6e then some .OP_2DUP
  else if b = 0x6f then some .OP_3DUP
  else if b = 0x70 then some .OP_2OVER
  else if b = 0x71 then some .OP_2ROT
  else if b = 0x72 then some .OP_2SWAP
  else if b = 0x73 then some .OP_IFDUP
  else if b = 0x74 then some .OP_DEPTH
  else if b = 0x75 then some .OP_DROP
  else if b = 0x76 then some .OP_DUP
  else if b = 0x77 then some .OP_NIP
  else if b = 0x78 then some .OP_OVER
  else if b = 0x79 then some .OP_PICK
  else if b = 0x7a then some .OP_ROLL
  else if b = 0x7b then some .OP_ROT
  else if b = 0x7c then some .OP_SWAP
  else if b = 0x7d then some .OP_TUCK
  else if b = 0x7e then some .OP_CAT
  else if b = 0x7f then some .OP_SUBSTR
  else if b = 0x80 then some .OP_LEFT
  else if b = 0x81 then some .OP_RIGHT
  else if b = 0x82 then some .OP_SIZE
  else if b = 0x83 then some .OP_INVERT
  else if b = 0x84 then some .OP_AND
  else if b = 0x85 then some .OP_OR
  else if b = 0x86 then some .OP_XOR
  else if b = 0x87 then some .OP_EQUAL
  else if b = 0x88 then some .OP_EQUALVERIFY
  else if b = 0x89 then some .OP_RESERVED1
  else if b = 0x8a then some .OP_RESERVED2
  else if b = 0x8b then some .OP_1ADD
  else if b = 0x8c then some .OP_1SUB
  else if b = 0x8d then some .OP_2MUL
  else if b = 0x8e then some .OP_2DIV
  else if b = 0x8f then some .OP_NEGATE
  else if b = 0x90 then some .OP_ABS
  else if b = 0x91 then some .OP_NOT
  else if b = 0x92 then some .OP_0NOTEQUAL
  else if b = 0x93 then some .OP_ADD
  else if b = 0x94 then some .OP_SUB
  else if b = 0x95 then some .OP_MUL
  else if b = 0x96 then some .OP_DIV
  else if b = 0x97 then some .OP_MOD
  else if b = 0x98 then some .OP_LSHIFT
  else if b = 0x99 then some .OP_RSHIFT
  else if b = 0x9a then some .OP_BOOLAND
  else if b = 0x9b then some .OP_BOOLOR
  else if b = 0x9c then some .OP_NUMEQUAL
  else if b = 0x9d then some .OP_NUMEQUALVERIFY
  else if b = 0x9e then some .OP_NUMNOTEQUAL
  else if b = 0x9f then some .OP_LESSTHAN
  else if b = 0xa0 then some .OP_GREATERTHAN
  else if b = 0xa1 then some .OP_LESSTHANOREQUAL
  else if b = 0xa2 then some .OP_GREATERTHANOREQUAL
  else if b = 0xa3 then some .OP_MIN
  else if b = 0xa4 then some .OP_MAX
  else if b = 0xa5 then some .OP_WITHIN
  else if b = 0xa6 then some .OP_RIPEMD160
  else if b = 0xa7 then some .OP_SHA1
  else if b = 0xa8 then some .OP_SHA256
  else if b = 0xa9 then some .OP_HASH160
  else if b = 0xaa then some .OP_HASH256
  else if b = 0xab then some .OP_CODESEPARATOR
  else if b = 0xac then some .OP_CHECKSIG
  else if b = 0xad then some .OP_CHECKSIGVERIFY
  else if b = 0xae then some .OP_CHECKMULTISIG
  else if b = 0xaf then some .OP_CHECKMULTISIGVERIFY
  else if b = 0xb0 then some .OP_NOP1
  else if b = 0xb1 then some .OP_CHECKLOCKTIMEVERIFY
  else if b = 0xb2 then some .OP_CHECKSEQUENCEVERIFY
  else if b = 0xb3 then some .OP_NOP4
  else if b = 0xb4 then some .OP_NOP5
  else if b = 0xb5 then some .OP_NOP6
  else if b = 0xb6 then some .OP_NOP7
  else if b = 0xb7 then some .OP_NOP8
  else if b = 0xb8 then some .OP_NOP9
  else if b = 0xb9 then some .OP_NOP10
  else if b = 0xba then some .OP_CHECKSIGADD
  else if b = 0xff then some .OP_INVALIDOPCODE
  else none

/-- Embedding of `impl From<Opcode> for u8` (`src/script.rs`).  The two
`panic!` arms for `OP_PUSHBYTES(0)` and `OP_PUSHBYTES(n ≥ 76)` are modelled
as `none`; every other opcode maps to its tag byte. -/
def toByte : Opcode → Option Nat
  | .OP_0 => some 0x00
  | .OP_FALSE => some 0x00
  | .OP_PUSHBYTES n => if n = 0 then none else if 76 ≤ n then none else some n
  | .OP_PUSHDATA1 _ => some 0x4c
  | .OP_PUSHDATA2 _ _ => some 0x4d
  | .OP_PUSHDATA4 _ _ _ _ => some 0x4e
  | .OP_1NEGATE => some 0x4f
  | .OP_RESERVED => some 0x50
  | .OP_1 => some 0x51
  | .OP_TRUE => some 0x51
  | .OP_2 => some 0x52
  | .OP_3 => some 0x53
  | .OP_4 => some 0x54
  | .OP_5 => some 0x55
  | .OP_6 => some 0x56
  | .OP_7 => some 0x57
  | .OP_8 => some 0x58
  | .OP_9 => some 0x59
  | .OP_10 => some 0x5a
  | .OP_11 => some 0x5b
  | .OP_12 => some 0x5c
  | .OP_13 => some 0x5d
  | .OP_14 => some 0x5e
  | .OP_15 => some 0x5f
  | .OP_16 => some 0x60
  | .OP_NOP => some 0x61
  | .OP_VER => some 0x62
  | .OP_IF => some 0x63
  | .OP_NOTIF => some 0x64
  | .OP_VERIF => some 0x65
  | .OP_VERNOTIF => some 0x66
  | .OP_ELSE => some 0x67
  | .OP_ENDIF => some 0x68
  | .OP_VERIFY => some 0x69
  | .OP_RETURN => some 0x6a
  | .OP_TOALTSTACK => some 0x6b
  | .OP_FROMALTSTACK => some 0x6c
  | .OP_2DROP => some 0x6d
  | .OP_2DUP => some 0x6e
  | .OP_3DUP => some 0x6f
  | .OP_2OVER => some 0x70
  | .OP_2ROT => some 0x71
  | .OP_2SWAP => some 0x72
  | .OP_IFDUP => some 0x73
  | .OP_DEPTH => some 0x74
  | .OP_DROP => some 0x75
  | .OP_DUP => some 0x76
  | .OP_NIP => some 0x77
  | .OP_OVER => some 0x78
  | .OP_PICK => some 0x79
  | .OP_ROLL => some 0x7a
  | .OP_ROT => some 0x7b
  | .OP_SWAP => some 0x7c
  | .OP_TUCK => some 0x7d
  | .OP_CAT => some 0x7e
  | .OP_SUBSTR => some 0x7f
  | .OP_LEFT => some 0x80
  | .OP_RIGHT => some 0x81
  | .OP_SIZE => some 0x82
  | .OP_INVERT => some 0x83
  | .OP_AND => some 0x84
  | .OP_OR => some 0x85
  | .OP_XOR => some 0x86
  | .OP_EQUAL => some 0x87
  | .OP_EQUALVERIFY => some 0x88
  | .OP_RESERVED1 => some 0x89
  | .OP_RESERVED2 => some 0x8a
  | .OP_1ADD => some 0x8b
  | .OP_1SUB => some 0x8c
  | .OP_2MUL => some 0x8d
  | .OP_2DIV => some 0x8e
  | .OP_NEGATE => some 0x8f
  | .OP_ABS => some 0x90
  | .OP_NOT => some 0x91
  | .OP_0NOTEQUAL => some 0x92
  | .OP_ADD => some 0x93
  | .OP_SUB => some 0x94
  | .OP_MUL => some 0x95
  | .OP_DIV => some 0x96
  | .OP_MOD => some 0x97
  | .OP_LSHIFT => some 0x98
  | .OP_RSHIFT => some 0x99
  | .OP_BOOLAND => some 0x9a
  | .OP_BOOLOR => some 0x9b
  | .OP_NUMEQUAL => some 0x9c
  | .OP_NUMEQUALVERIFY => some 0x9d
  | .OP_NUMNOTEQUAL => some 0x9e
  | .OP_LESSTHAN => some 0x9f
  | .OP_GREATERTHAN => some 0xa0
  | .OP_LESSTHANOREQUAL => some 0xa1
  | .OP_GREATERTHANOREQUAL => some 0xa2
  | .OP_MIN => some 0xa3
  | .OP_MAX => some 0xa4
  | .OP_WITHIN => some 0xa5
  | .OP_RIPEMD160 => some 0xa6
  | .OP_SHA1 => some 0xa7
  | .OP_SHA256 => some 0xa8
  | .OP_HASH160 => some 0xa9
  | .OP_HASH256 => some 0xaa
  | .OP_CODESEPARATOR => some 0xab
  | .OP_CHECKSIG => some 0xac
  | .OP_CHECKSIGVERIFY => some 0xad
  | .OP_CHECKMULTISIG => some 0xae
  | .OP_CHECKMULTISIGVERIFY => some 0xaf
  | .OP_NOP1 => some 0xb0
  | .OP_CHECKLOCKTIMEVERIFY => some 0xb1
  | .OP_NOP2 => some 0xb1
  | .OP_CHECKSEQUENCEVERIFY => some 0xb2
  | .OP_NOP3 => some 0xb2
  | .OP_NOP4 => some 0xb3
  | .OP_NOP5 => some 0xb4
  | .OP_NOP6 => some 0xb5
  | .OP_NOP7 => some 0xb6
  | .OP_NOP8 => some 0xb7
  | .OP_NOP9 => some 0xb8
  | .OP_NOP10 => some 0xb9
  | .OP_CHECKSIGADD => some 0xba
  | .OP_INVALIDOPCODE => some 0xff

end BitcoinRs

namespace BitcoinRs

/-! ## Script term codec (`src/script.rs`, `impl Serialize / Deserialize for Script`) -/

/-- The `Term` enum of `src/script.rs`: an instruction or inline data. -/
inductive Term where
  | Instruction (op : Opcode)
  | Data (bytes : List Nat)

/-- Byte emission for one `Term`, following the per-term match inside
`impl Serialize for Script`: push-data opcodes emit their tag byte followed
by their stored length-descriptor payload, every other instruction emits
`u8::from(op)` (whose panics become `none`), and a `Data` term emits its
bytes verbatim. -/
def serializeTerm : Term → Option (List Nat)
  | .Instruction (.OP_PUSHDATA1 x) => some [0x4c, x]
  | .Instruction (.OP_PUSHDATA2 x1 x2) => some [0x4d, x1, x2]
  | .Instruction (.OP_PUSHDATA4 x1 x2 x3 x4) => some [0x4e, x1, x2, x3, x4]
  | .Instruction op => (toByte op).map (fun b => [b])
  | .Data d => some d

/-- Embedding of `impl Serialize for Script`: the concatenation, in order, of
the bytes of every term (the 8-byte bincode length prefix that `to_bytes`
strips again is omitted). -/
def serializeScript : List Term → Option (List Nat)
  | [] => some []
  | t :: ts => do pure ((← serializeTerm t) ++ (← serializeScript ts))

/-- Embedding of the scanning loop of `impl Deserialize for Script`
(equivalently `Script::of_bytes` after bincode strips the length prefix),
operating on the remaining byte suffix, with an explicit iteration budget.
Out-of-bounds slicing and the failed `assert!(nb_bytes >= 76)` of the `0x4c`
branch are modelled as `none`.  Note the `0x4e` branch: the source reads the
data slice `data[i+5..i+5+nb]` but advances the cursor with
`i += 5 + 1 + nb_bytes`, so one extra byte is dropped, reproduced here as
`rest2.drop (nb + 1)`. -/
def deserializeSteps : Nat → List Nat → Option (List Term)
  | 0, _ => none
  | _ + 1, [] => some []
  | fuel + 1, b :: rest =>
    if b = 0 then
      (deserializeSteps fuel rest).map (fun ts => .Instruction .OP_0 :: ts)
    else if b ≤ 75 then
      if rest.length < b then none
      else
        (deserializeSteps fuel (rest.drop b)).map
          (fun ts => .Instruction (.OP_PUSHBYTES b) :: .Data (rest.take b) :: ts)
    else if b = 0x4c then
      match rest with
      | [] => none
      | nb :: rest2 =>
        if nb < 76 then none
        else if rest2.length < nb then none
        else
          (deserializeSteps fuel (rest2.drop nb)).map
            (fun ts => .Instruction (.OP_PUSHDATA1 nb) :: .Data (rest2.take nb) :: ts)
    else if b = 0x4d then
      match rest with
      | b1 :: b2 :: rest2 =>
        let nb := ((b1 * 256) + b2) * 256
        if rest2.length < nb then none
        else
          (deserializeSteps fuel (rest2.drop nb)).map
            (fun ts => .Instruction (.OP_PUSHDATA2 b1 b2) :: .Data (rest2.take nb) :: ts)
      | _ => none
    else if b = 0x4e then
      match rest with
      | b1 :: b2 :: b3 :: b4 :: rest2 =>
        let nb := ((((b1 * 256) + b2) * 256 + b3) * 256 + b4) * 256
        if rest2.length < nb then none
        else
          (deserializeSteps fuel (rest2.drop (nb + 1))).map
            (fun ts =>
              .Instruction (.OP_PUSHDATA4 b1 b2 b3 b4) :: .Data (rest2.take nb) :: ts)
      | _ => none
    else
      (fromByte b).bind (fun op =>
        (deserializeSteps fuel rest).map (fun ts => .Instruction op :: ts))

/-- The full decode of a byte buffer.  Every iteration of the source loop
strictly advances the cursor, and the loop stops once the cursor reaches the
end, so the loop runs at most `data.length + 1` times: that budget makes
`deserializeSteps` exactly the source loop. -/
def deserializeScript (data : List Nat) : Option (List Term) :=
  deserializeSteps (data.length + 1) data

end BitcoinRs

namespace BitcoinRs

/-! ## Stack interpreter (`src/script.rs`, `Script::interpret`) -/

/-- Outcome of `Script::interpret`.  A `verdict` is a normal boolean return;
`notImplemented` is the `unimplemented!("The opcode {opcode} is not
implemented")` abort; `panicOOB` is a Rust panic from an out-of-bounds index
(`stack.0[0]`) or an `unwrap` of `None` (`stack.0.pop().unwrap()`). -/
inductive InterpResult where
  | verdict (b : Bool)
  | notImplemented (op : Opcode)
  | panicOOB

/-- Interpreter state: the stack (in `Vec` order, index 0 first, pushes at
the end) together with the `exp_bytes` register. -/
structure InterpState where
  stack : List (List Nat)
  expBytes : Option Nat

/-- Model of `Vec::pop`: removes and returns the last element, `none` on an
empty vector (whose `unwrap` is a panic). -/
def popVec {α : Type} : List α → Option (α × List α)
  | [] => none
  | [a] => some (a, [])
  | a :: rest => (popVec rest).map (fun p => (p.1, a :: p.2))

/-- The equality test of the `OP_EQUALVERIFY` arm:
`lhs.len() == rhs.len() && lhs.iter().zip(rhs.iter()).all(|(x, y)| x == y)`. -/
def bytesEqual (lhs rhs : List Nat) : Bool :=
  lhs.length == rhs.length && (lhs.zip rhs).all (fun p => p.1 == p.2)

/-- One iteration of the `for c in self.0` loop of `Script::interpret`,
parameterized by the `hash160` function (SHA-256 then RIPEMD-160) that the
`OP_HASH160` arm applies to the popped element.  `Except.error` carries an
early exit (an early `return false`, a panic, or `unimplemented!`);
`Except.ok` is the state for the next iteration.  Note that a successful
`Data` push leaves `exp_bytes` unchanged: the source assigns that register
only at initialization and in the `OP_PUSHBYTES` arm, never clearing it
after a push. -/
def stepTerm (h160 : List Nat → List Nat) (st : InterpState) :
    Term → Except InterpResult InterpState
  | .Data v =>
    match st.expBytes with
    | none => .error (.verdict false)
    | some n =>
      if v.length ≠ n then .error (.verdict false)
      else .ok ⟨st.stack ++ [v], st.expBytes⟩
  | .Instruction opcode =>
    match opcode with
    | .OP_0 => .ok ⟨st.stack ++ [[0]], st.expBytes⟩
    | .OP_FALSE => .ok ⟨st.stack ++ [[0]], st.expBytes⟩
    | .OP_PUSHBYTES n => .ok ⟨st.stack, some n⟩
    | .OP_DUP =>
      match st.stack with
      | [] => .error .panicOOB
      | hd :: tl => .ok ⟨(hd :: tl) ++ [hd], st.expBytes⟩
    | .OP_HASH160 =>
      match popVec st.stack with
      | none => .error .panicOOB
      | some (hd, rest) => .ok ⟨rest ++ [h160 hd], st.expBytes⟩
    | .OP_EQUALVERIFY =>
      match popVec st.stack with
      | none => .error .panicOOB
      | some (lhs, s1) =>
        match popVec s1 with
        | none => .error .panicOOB
        | some (rhs, s2) =>
          let isEqual := bytesEqual lhs rhs
          match popVec (s2 ++ [[if isEqual then 1 else 0]]) with
          | none => .error .panicOOB
          | some (res, s3) =>
            if res.length = 1 ∧ res.head? = some 1 then .ok ⟨s3, st.expBytes⟩
            else .error (.verdict false)
    | op => .error (.notImplemented op)

/-- The whole `for` loop of `Script::interpret` from a given state. -/
def runTerms (h160 : List Nat → List Nat) :
    List Term → InterpState → Except InterpResult InterpState
  | [], st => .ok st
  | t :: ts, st => do runTerms h160 ts (← stepTerm h160 st t)

/-- Embedding of `Script::interpret`: run all terms from the given initial
stack with no expected push length; on normal completion the verdict is
`stack.0.is_empty()`, and an early exit's outcome is returned as is. -/
def interpret (h160 : List Nat → List Nat) (s : List Term)
    (stack : List (List Nat)) : InterpResult :=
  match runTerms h160 s ⟨stack, none⟩ with
  | .ok st => .verdict st.stack.isEmpty
  | .error r => r

end BitcoinRs

namespace BitcoinRs

/-! ## Helper lemmas -/

/-- Reduction of an `Except` bind on a success value. -/
theorem bind_ok_eq {e a b : Type} (x : a) (f : a → Except e b) :
    (Except.ok x : Except e a) >>= f = f x := rfl

/-- Reduction of an `Except` bind on an error value. -/
theorem bind_error_eq {e a b : Type} (err : e) (f : a → Except e b) :
    (Except.error err : Except e a) >>= f = Except.error err := rfl

/-- The set of opcodes the interpreter implements: exactly the arms of the
`Term::Instruction` match in `Script::interpret` other than the catch-all. -/
def implementedOp : Opcode → Bool
  | .OP_0 => true
  | .OP_FALSE => true
  | .OP_PUSHBYTES _ => true
  | .OP_DUP => true
  | .OP_HASH160 => true
  | .OP_EQUALVERIFY => true
  | _ => false

/-- An instruction outside the implemented set hits the `unimplemented!`
catch-all regardless of the current state. -/
theorem stepTerm_not_implemented (h160 : List Nat → List Nat) (st : InterpState)
    (op : Opcode) (hop : implementedOp op = false) :
    stepTerm h160 st (.Instruction op) = .error (.notImplemented op) := by
  cases op <;> first
    | rfl
    | simp [implementedOp] at hop

/-- Running a concatenation of term lists is running the first, then the
second from the resulting state. -/
theorem runTerms_append (h160 : List Nat → List Nat) (l1 l2 : List Term)
    (st : InterpState) :
    runTerms h160 (l1 ++ l2) st
      = (runTerms h160 l1 st) >>= (fun st2 => runTerms h160 l2 st2) := by
  induction l1 generalizing st with
  | nil => rfl
  | cons t ts ih =>
    show runTerms h160 (t :: (ts ++ l2)) st = _
    cases h : stepTerm h160 st t with
    | error e => simp [runTerms, h, bind_error_eq]
    | ok st2 => simp [runTerms, h, bind_ok_eq, ih st2]

set_option maxHeartbeats 4000000 in
set_option maxRecDepth 10000 in
/-- Exhaustive check of the opcode byte round trip over all byte values. -/
theorem fromByte_toByte_fin : ∀ b : Fin 256, ((b : Nat) ≤ 0xba ∨ (b : Nat) = 0xff) →
    (b : Nat) ≠ 0x4c → (b : Nat) ≠ 0x4d → (b : Nat) ≠ 0x4e →
    (fromByte (b : Nat)).bind toByte = some (b : Nat) := by decide

/-! ## Claim theorems -/

/-- C1: decoding the 26-byte script `76 a9 14 <20 bytes> 88 ac` succeeds and
re-encoding the decoded Script yields exactly the original bytes. -/
theorem script_p2pkh_roundtrip (d : List Nat) (h : d.length = 20) :
    (deserializeScript ([0x76, 0xa9, 0x14] ++ d ++ [0x88, 0xac])) >>= serializeScript
      = some ([0x76, 0xa9, 0x14] ++ d ++ [0x88, 0xac]) := by
  have htake : (d ++ [0x88, 0xac]).take 20 = d := List.take_left' h
  have hdrop : (d ++ [0x88, 0xac]).drop 20 = [0x88, 0xac] := List.drop_left' h
  have hlenfull : ([0x76, 0xa9, 0x14] ++ d ++ [0x88, 0xac] : List Nat).length = 25 := by
    simp [h]
  unfold deserializeScript
  rw [hlenfull]
  simp only [List.cons_append, List.nil_append]
  simp only [deserializeSteps, h, htake, hdrop]
  simp [fromByte, serializeScript, serializeTerm, toByte, h]

/-- Witness for C1 at the 20-byte payload consisting of `0xaa` bytes. -/
theorem script_p2pkh_roundtrip_witness :
    (List.replicate 20 0xaa : List Nat).length = 20 ∧
    (deserializeScript ([0x76, 0xa9, 0x14] ++ List.replicate 20 0xaa ++ [0x88, 0xac]))
        >>= serializeScript
      = some ([0x76, 0xa9, 0x14] ++ List.replicate 20 0xaa ++ [0x88, 0xac]) :=
  ⟨rfl, script_p2pkh_roundtrip (List.replicate 20 0xaa) rfl⟩

/-- C2: when the interpreter loop consumes every Term without an early exit,
the verdict is `true` exactly when the final stack is empty; in particular a
final stack holding exactly the single item `[1]` yields verdict `false`. -/
theorem interpret_verdict_iff_empty_stack (h160 : List Nat → List Nat)
    (s : List Term) (stack : List (List Nat)) (st2 : InterpState)
    (hrun : runTerms h160 s ⟨stack, none⟩ = .ok st2) :
    (interpret h160 s stack = .verdict true ↔ st2.stack = []) ∧
    (st2.stack = [[1]] → interpret h160 s stack = .verdict false) := by
  have hi : interpret h160 s stack = .verdict st2.stack.isEmpty := by
    unfold interpret
    rw [hrun]
  rw [hi]
  refine ⟨⟨fun h => ?_, fun h => ?_⟩, fun h => ?_⟩
  · cases hst : st2.stack with
    | nil => rfl
    | cons a l => rw [hst] at h; simp at h
  · rw [h]; rfl
  · rw [h]; rfl

/-- Witness for C2: a completed run leaving the single item `[1]` gives
verdict `false`. -/
theorem interpret_verdict_iff_empty_stack_witness :
    interpret (fun _ => []) [.Instruction (.OP_PUSHBYTES 1), .Data [1]] []
      = .verdict false :=
  (interpret_verdict_iff_empty_stack (fun _ => [])
    [.Instruction (.OP_PUSHBYTES 1), .Data [1]] [] ⟨[[1]], some 1⟩ rfl).2 rfl

/-- C3 (divergence witness): the length check of the Data arm holds — a Data
term of the wrong length fails immediately — but the expected-length
register is never cleared: `exp_bytes` is assigned only at initialization
and in the `OP_PUSHBYTES` arm, so a successful push leaves it set, a second
matching-length Data term with no intervening push instruction is pushed as
well, and the script `[OP_PUSHBYTES(1), Data([1]), Data([1]),
OP_EQUALVERIFY]` runs to completion with verdict `true` instead of the
claimed immediate failure of the second Data term. -/
theorem interpret_data_expectation_not_cleared (h160 : List Nat → List Nat) :
    stepTerm h160 ⟨[], some 1⟩ (.Data [7, 7]) = .error (.verdict false) ∧
    stepTerm h160 ⟨[], some 1⟩ (.Data [1]) = .ok ⟨[[1]], some 1⟩ ∧
    stepTerm h160 ⟨[[1]], some 1⟩ (.Data [1]) = .ok ⟨[[1], [1]], some 1⟩ ∧
    interpret h160
        [.Instruction (.OP_PUSHBYTES 1), .Data [1], .Data [1],
         .Instruction .OP_EQUALVERIFY] []
      = .verdict true :=
  ⟨rfl, rfl, rfl, rfl⟩

/-- C4 (divergence witness): decoding `4e 00 00 00 00 00 00` computes push
length `N = 0`, reads an empty data slice from offset 5, but advances the
cursor by `6 + N`, silently skipping the byte at offset 5; only the byte at
offset 6 is decoded as a further `OP_0`.  The claimed consumption of
`5 + N` bytes would instead leave two trailing `0x00` bytes, decoding to two
`OP_0` instructions. -/
theorem deserialize_pushdata4_cursor_bug :
    deserializeScript [0x4e, 0, 0, 0, 0, 0, 0]
      = some [.Instruction (.OP_PUSHDATA4 0 0 0 0), .Data [], .Instruction .OP_0] ∧
    deserializeScript [0x4e, 0, 0, 0, 0, 0, 0]
      ≠ some [.Instruction (.OP_PUSHDATA4 0 0 0 0), .Data [],
              .Instruction .OP_0, .Instruction .OP_0] := by
  refine ⟨rfl, fun hcontra => ?_⟩
  have h1 : deserializeScript [0x4e, 0, 0, 0, 0, 0, 0]
      = some [.Instruction (.OP_PUSHDATA4 0 0 0 0), .Data [], .Instruction .OP_0] := rfl
  rw [h1] at hcontra
  simp at hcontra

/-- C5: an executed instruction outside the implemented set
`{OP_0, OP_FALSE, OP_PUSHBYTES, OP_DUP, OP_HASH160, OP_EQUALVERIFY}` makes
interpret surface the explicit not-implemented failure, which is distinct
from every boolean verdict. -/
theorem interpret_unimplemented_fatal (h160 : List Nat → List Nat)
    (pre rest : List Term) (op : Opcode) (stack : List (List Nat))
    (mid : InterpState)
    (hrun : runTerms h160 pre ⟨stack, none⟩ = .ok mid)
    (hop : implementedOp op = false) :
    interpret h160 (pre ++ .Instruction op :: rest) stack = .notImplemented op ∧
    (∀ b, InterpResult.notImplemented op ≠ .verdict b) := by
  have h2 : runTerms h160 (pre ++ .Instruction op :: rest) ⟨stack, none⟩
      = .error (.notImplemented op) := by
    rw [runTerms_append, hrun, bind_ok_eq]
    simp [runTerms, stepTerm_not_implemented h160 mid op hop, bind_error_eq]
  exact ⟨by unfold interpret; rw [h2], fun b h => InterpResult.noConfusion h⟩

/-- Witness for C5 at `OP_CHECKSIG` as the first instruction. -/
theorem interpret_unimplemented_fatal_witness :
    interpret (fun _ => []) [.Instruction .OP_CHECKSIG] []
      = .notImplemented .OP_CHECKSIG :=
  (interpret_unimplemented_fatal (fun _ => []) [] [] .OP_CHECKSIG []
    ⟨[], none⟩ rfl rfl).1

/-- C6: a Script whose first Term is Data (no preceding push instruction)
interprets to the `false` verdict, for every payload, continuation and
initial stack, with no panic. -/
theorem interpret_leading_data_false (h160 : List Nat → List Nat)
    (b : List Nat) (rest : List Term) (stack : List (List Nat)) :
    interpret h160 (.Data b :: rest) stack = .verdict false := rfl

/-- C8: for every accepted tag byte (at most `0xba`, or exactly `0xff`)
other than the three push-data tags `0x4c`/`0x4d`/`0x4e`, converting to an
Opcode and back yields the same byte. -/
theorem opcode_byte_roundtrip (b : Nat) (hacc : b ≤ 0xba ∨ b = 0xff)
    (h1 : b ≠ 0x4c) (h2 : b ≠ 0x4d) (h3 : b ≠ 0x4e) :
    (fromByte b).bind toByte = some b :=
  fromByte_toByte_fin ⟨b, by omega⟩ hacc h1 h2 h3

/-- Witness for C8 at the byte `0x76` (`OP_DUP`). -/
theorem opcode_byte_roundtrip_witness :
    (fromByte 0x76).bind toByte = some 0x76 :=
  opcode_byte_roundtrip 0x76 (Or.inl (by decide)) (by decide) (by decide) (by decide)

/-- C9: on a non-empty stack, `OP_DUP` appends a copy of the element at
index 0 of the underlying sequence (the stack bottom, not necessarily the
top) and leaves every existing element in place. -/
theorem interpret_dup_duplicates_bottom (h160 : List Nat → List Nat)
    (v : List Nat) (tl : List (List Nat)) (exp : Option Nat) :
    stepTerm h160 ⟨v :: tl, exp⟩ (.Instruction .OP_DUP)
      = .ok ⟨(v :: tl) ++ [v], exp⟩ := rfl

/-- C10: `OP_DUP` and `OP_HASH160` on an empty stack, and `OP_EQUALVERIFY`
on a stack with fewer than two items, abort with a panic (out-of-bounds
index or `unwrap` of `None`) rather than returning a boolean verdict. -/
theorem interpret_understacked_panics (h160 : List Nat → List Nat)
    (exp : Option Nat) (stack : List (List Nat)) (hlen : stack.length < 2) :
    stepTerm h160 ⟨[], exp⟩ (.Instruction .OP_DUP) = .error .panicOOB ∧
    stepTerm h160 ⟨[], exp⟩ (.Instruction .OP_HASH160) = .error .panicOOB ∧
    stepTerm h160 ⟨stack, exp⟩ (.Instruction .OP_EQUALVERIFY) = .error .panicOOB ∧
    (∀ b, InterpResult.panicOOB ≠ .verdict b) ∧
    interpret h160 [.Instruction .OP_DUP] [] = .panicOOB := by
  refine ⟨rfl, rfl, ?_, fun b h => InterpResult.noConfusion h, rfl⟩
  match stack, hlen with
  | [], _ => rfl
  | [a], _ => rfl

/-- Witness for C10 at the one-item stack `[[1]]`. -/
theorem interpret_understacked_panics_witness :
    stepTerm (fun _ => []) ⟨[[1]], none⟩ (.Instruction .OP_EQUALVERIFY)
      = .error .panicOOB :=
  (interpret_understacked_panics (fun _ => []) none [[1]] (by decide)).2.2.1

end BitcoinRs
